import Mathlib

/-!
Verification of the frame-rendering orchestration engine of
`packages/renderer/src/render-frames.ts`.

The pure control structure of the source is embedded shallowly:
the retry loop `renderFrameAndRetryTargetClose`, the per-frame task body
`renderFrameWithOptionToReject`, the numbering/padding plan, the result
manifest (`happyPath`), the asset-slot array, and — modelled from the
spec where their sources are not part of this snapshot — the worker pool
and the crash-recovery coordinator.
-/

namespace RenderFrames

/-- Source: `const MAX_RETRIES_PER_FRAME = 1;` (render-frames.ts line 52). -/
def MAX_RETRIES_PER_FRAME : Nat := 1

/-- An error value as seen by the catch block of
`renderFrameAndRetryTargetClose`.  The source classifies an error only
through the predicates `isUserCancelledRender` and `isTargetClosedErr`
(whose own sources are external helper modules); we carry their verdicts
as fields, plus an id to distinguish concrete error values. -/
structure Err where
  isUserCancelled : Bool
  isTargetClosed : Bool
  id : Nat
deriving DecidableEq, Repr

/-- Decidable equality of settlements, for concrete evaluation. -/
instance {ε α : Type} [DecidableEq ε] [DecidableEq α] : DecidableEq (Except ε α) :=
  fun a b =>
    match a, b with
    | .ok x, .ok y =>
      if h : x = y then isTrue (by rw [h])
      else isFalse (by intro hc; cases hc; exact h rfl)
    | .error e1, .error e2 =>
      if h : e1 = e2 then isTrue (by rw [h])
      else isFalse (by intro hc; cases hc; exact h rfl)
    | .ok _, .error _ => isFalse (by intro hc; cases hc)
    | .error _, .ok _ => isFalse (by intro hc; cases hc)

/-- Outcome of one awaited attempt of
`Promise.race([renderFrame(frame, index), cancelPromise])`:
either it resolves, or it rejects with some error. -/
inductive AttemptOutcome where
  | success
  | failure (e : Err)
deriving DecidableEq, Repr

/-- Terminal behaviour of one call of `renderFrameAndRetryTargetClose`:
the async function either returns normally or throws. -/
inductive TaskResult where
  | completed
  | raised (e : Err)
deriving DecidableEq, Repr

/-- Observable events of the retry loop: an attempt numbered as the
source's `attempt` parameter, and a browser replacement
(`browserReplacer.replaceBrowser(...)` together with its pool refill). -/
inductive RunEv where
  | attemptEv (n : Nat)
  | replaceEv
deriving DecidableEq, Repr

/-- Shallow embedding of `renderFrameAndRetryTargetClose`
(render-frames.ts lines 394-454).  `outcomes n` is the settlement of the
n-th attempt's race, `stoppedAt n` the value of the mutable `stopped`
flag when the n-th attempt's catch block reads it.  Returns the terminal
result together with the ordered list of attempts and replacements.

Source order inside `catch (err)`:
`isUserCancelledRender` rethrow; `!isTargetClosedErr` rethrow;
`stopped` plain return; `retriesLeft === 0` rethrow; otherwise
`replaceBrowser` then recurse with `retriesLeft - 1`, `attempt + 1`. -/
def renderFrameAndRetryTargetClose (outcomes : Nat → AttemptOutcome)
    (stoppedAt : Nat → Bool) : Nat → Nat → TaskResult × List RunEv
  | retriesLeft, attemptNo =>
    match outcomes attemptNo with
    | .success => (.completed, [.attemptEv attemptNo])
    | .failure e =>
      if e.isUserCancelled then (.raised e, [.attemptEv attemptNo])
      else if e.isTargetClosed = false then (.raised e, [.attemptEv attemptNo])
      else if stoppedAt attemptNo then (.completed, [.attemptEv attemptNo])
      else
        match retriesLeft with
        | 0 => (.raised e, [.attemptEv attemptNo])
        | r + 1 =>
          let rest := renderFrameAndRetryTargetClose outcomes stoppedAt r (attemptNo + 1)
          (rest.1, .attemptEv attemptNo :: .replaceEv :: rest.2)

/-- Number of attempts recorded in a run-event trace. -/
def countAttempts (evs : List RunEv) : Nat :=
  evs.countP fun ev => match ev with | .attemptEv _ => true | .replaceEv => false

/-- Number of browser replacements recorded in a run-event trace. -/
def countReplacements (evs : List RunEv) : Nat :=
  evs.countP fun ev => match ev with | .attemptEv _ => false | .replaceEv => true

/-- `const progress = Promise.all(framesToRender.map(...))`
(render-frames.ts lines 456-465): the join rejects with an error as soon
as some task raised one, and resolves only when every task completed. -/
def progressResult (tasks : List TaskResult) : Except Err Unit :=
  match tasks.findSome? (fun t => match t with
    | .raised e => some e
    | .completed => none) with
  | some e => .error e
  | none => .ok ()

/-! ## Per-frame task body (`renderFrameWithOptionToReject`, lines 271-374) -/

/-- Environment of one execution of the frame-task body: the value of the
mutable `stopped` flag at the check following `pool.acquire()`, whether
`seekToFrame` / `takeFrameAndCompose` fail, and the output-mode
configuration (`outputDir`, `onFrameBuffer`, `imageFormat === 'none'`). -/
structure FrameTaskEnv where
  stopped : Bool
  seekFails : Bool
  hasOutputDir : Bool
  hasOnFrameBuffer : Bool
  imageFormatIsNone : Bool
  captureFails : Bool
deriving DecidableEq, Repr, Fintype

/-- Observable events of the frame-task body. -/
inductive TaskEv where
  | acquireEv    -- `await pool.acquire()`
  | seekEv       -- `await seekToFrame(...)`
  | captureEv    -- `await takeFrameAndCompose(...)`
  | writeSlotEv  -- `assets[index] = compressedAssets`
  | releaseEv    -- `pool.release(freePage)`
deriving DecidableEq, Repr, Fintype

/-- Errors the frame task can reject or throw with. -/
inductive TaskErr where
  | renderWasStopped    -- reject(new Error('Render was stopped'))
  | seekError           -- seekToFrame rejected
  | configNeitherOutput -- neither outputDir nor onFrameBuffer, format not 'none'
  | configBothOutputs   -- both outputDir and onFrameBuffer, format not 'none'
  | captureError        -- takeFrameAndCompose rejected
  | pageError           -- errorCallbackOnFrame fired (page 'error' event or
                        -- handleJavascriptException, lines 293-302)
deriving DecidableEq, Repr, Fintype

/-- Shallow embedding of the synchronous control flow of
`renderFrameWithOptionToReject` (render-frames.ts lines 271-374),
returning the ordered trace of events together with the body's own
settlement.  The source order is: acquire the page, check `stopped`,
seek to the frame, check the two output-mode configuration errors,
capture, write the asset slot, release the page.  The out-of-band
error-callback rejection of lines 293-302 is layered on top by
`renderFrameTaskSettled`. -/
def renderFrameWithOptionToReject (env : FrameTaskEnv) :
    List TaskEv × Except TaskErr Unit :=
  if env.stopped then ([.acquireEv], .error .renderWasStopped)
  else if env.seekFails then ([.acquireEv, .seekEv], .error .seekError)
  else if !env.hasOutputDir && !env.hasOnFrameBuffer && !env.imageFormatIsNone then
    ([.acquireEv, .seekEv], .error .configNeitherOutput)
  else if env.hasOutputDir && env.hasOnFrameBuffer && !env.imageFormatIsNone then
    ([.acquireEv, .seekEv], .error .configBothOutputs)
  else if env.captureFails then
    ([.acquireEv, .seekEv, .captureEv], .error .captureError)
  else ([.acquireEv, .seekEv, .captureEv, .writeSlotEv, .releaseEv], .ok ())

/-- The frame task's promise settlement with the error-callback path of
render-frames.ts lines 293-302 included.  `handleJavascriptException`
and `freePage.on('error', errorCallbackOnFrame)` register callbacks —
only once the `stopped` check has passed — that call `reject(err)`
out-of-band without aborting the body, which keeps running and, when
the rest of it succeeds, still reaches `pool.release(freePage)` at line
373.  `pageErrorFires` states that such a callback fired while the body
was running: the promise then settles rejected with the page error,
while the body's event trace is unchanged. -/
def renderFrameTaskSettled (env : FrameTaskEnv) (pageErrorFires : Bool) :
    List TaskEv × Except TaskErr Unit :=
  let body := renderFrameWithOptionToReject env
  if pageErrorFires && !env.stopped then (body.1, .error .pageError)
  else body

/-- Modelled from the spec: make-cancel-signal.ts is not part of this
snapshot.  The race's cancel arm rejects with the distinguished
renderFrames cancellation error, recognised by `isUserCancelledRender`;
a signal that has already fired invokes a newly subscribed callback at
once, so the cancel arm settles immediately. -/
def cancelErr : Err := ⟨true, false, 0⟩

/-- Settlement of `Promise.race([renderFrame(...), cancelPromise])`
(render-frames.ts lines 406-413) as seen by the retry loop's catch:
if the cancel signal has already fired the race rejects with the
cancellation error; otherwise it follows the task body, whose errors
are classified by `classify`. -/
def raceWithCancelSignal (signalFired : Bool) (bodyOutcome : Except TaskErr Unit)
    (classify : TaskErr → Err) : AttemptOutcome :=
  if signalFired then .failure cancelErr
  else
    match bodyOutcome with
    | .ok _ => .success
    | .error e => .failure (classify e)

/-! ## Render plan, numbering mode and padding (lines 157-163, 249-256) -/

/-- `CountType` of get-frame-padded-index.ts. -/
inductive CountType where
  | actualFrames
  | fromZero
deriving DecidableEq, Repr

/-- Source (render-frames.ts lines 249-250):
`everyNthFrame === 1 ? 'actual-frames' : 'from-zero'`. -/
def countType (everyNthFrame : Nat) : CountType :=
  if everyNthFrame = 1 then .actualFrames else .fromZero

/-- Modelled from the spec: get-frame-to-render.ts (`getRealFrameRange`)
is not part of this snapshot.  The plan covers the whole addressable
range `[0, durationInFrames - 1]` unless an explicit sub-range is
given. -/
def getRealFrameRange (durationInFrames : Nat) (frameRange : Option (Nat × Nat)) :
    Nat × Nat :=
  match frameRange with
  | none => (0, durationInFrames - 1)
  | some r => r

/-- Modelled from the spec: get-duration-from-frame-range.ts
(`getFramesToRender`) is not part of this snapshot.  The frames are the
in-range frames whose offset from the first in-range frame is a multiple
of the stride, so the first in-range frame is always included and the
result is an arithmetic progression. -/
def getFramesToRender (range : Nat × Nat) (everyNthFrame : Nat) : List Nat :=
  (List.range (range.2 + 1 - range.1)).filterMap fun i =>
    if i % everyNthFrame = 0 then some (range.1 + i) else none

/-- Number of decimal digits of a natural number (fuel-based so that it
reduces inside the kernel; the fuel `n` always suffices). -/
def decimalWidthAux : Nat → Nat → Nat
  | 0, _ => 1
  | fuel + 1, n => if n < 10 then 1 else decimalWidthAux fuel (n / 10) + 1

/-- Number of decimal digits of a natural number, the length of
`String(n)` in the source. -/
def decimalWidth (n : Nat) : Nat := decimalWidthAux n n

/-- Modelled from the spec: get-frame-padded-index.ts
(`getFilePadLength`) is not part of this snapshot.  In actual-frames
mode the padding is computed from the maximum (last) actual frame
number; in from-zero mode it is computed from the count of selected
frames (the digit width of the largest from-zero index). -/
def getFilePadLength (lastFrame totalFrames : Nat) (ct : CountType) : Nat :=
  match ct with
  | .actualFrames => decimalWidth lastFrame
  | .fromZero => decimalWidth (totalFrames - 1)

/-- Modelled from the spec: get-frame-padded-index.ts
(`getFrameOutputFileName` / `getPaddedIndex`) is not part of this
snapshot.  The output index of a planned frame is the actual frame
number in actual-frames mode and the position in the plan in from-zero
mode. -/
def outputIndexForFrame (ct : CountType) (frame posIndex : Nat) : Nat :=
  match ct with
  | .actualFrames => frame
  | .fromZero => posIndex

/-- The output indices of a whole plan, in plan order. -/
def outputIndices (ct : CountType) (frames : List Nat) : List Nat :=
  frames.enum.map fun p => outputIndexForFrame ct p.2 p.1

/-! ## Result manifest (`happyPath`, lines 467-479) -/

/-- The `assetsInfo` part of `RenderFramesOutput`; asset descriptors are
opaque (`List Nat` stands for one frame's compressed asset list). -/
structure AssetsInfoModel where
  assetSlots : List (Option (List Nat))
  imageSequenceName : String
  firstFrameIndex : Nat
deriving DecidableEq, Repr

/-- The manifest handed to the encoding stage. -/
structure RenderFramesOutputModel where
  assetsInfo : AssetsInfoModel
  frameCount : Nat
deriving DecidableEq, Repr

/-- Shallow embedding of the `happyPath` result construction
(render-frames.ts lines 467-479). -/
def happyPath (framesToRender : List Nat) (ct : CountType) (filePadLength : Nat)
    (imageFormat : String) (assetSlots : List (Option (List Nat))) :
    RenderFramesOutputModel :=
  { assetsInfo :=
      { assetSlots := assetSlots
        imageSequenceName :=
          "element-%0" ++ Nat.repr filePadLength ++ "d." ++ imageFormat
        firstFrameIndex :=
          if ct = .fromZero then 0 else framesToRender.headD 0 }
    frameCount := framesToRender.length }

/-- The manifest produced by `innerRenderFrames` for a successful run:
the plan pipeline of lines 157-163 and 249-256 feeding `happyPath`. -/
def innerRenderFramesManifest (durationInFrames : Nat)
    (frameRange : Option (Nat × Nat)) (everyNthFrame : Nat)
    (imageFormat : String) (assetSlots : List (Option (List Nat))) :
    RenderFramesOutputModel :=
  let realFrameRange := getRealFrameRange durationInFrames frameRange
  let framesToRender := getFramesToRender realFrameRange everyNthFrame
  let lastFrame := framesToRender.getLastD 0
  let ct := countType everyNthFrame
  let pad := getFilePadLength lastFrame framesToRender.length ct
  happyPath framesToRender ct pad imageFormat assetSlots

/-! ## Asset slots (lines 265, 354-357) -/

/-- Source (line 265):
`const assets: TAsset[][] = new Array(framesToRender.length).fill(undefined)`
— one pre-allocated slot per planned frame, initially unfilled. -/
def initialAssetSlots (n : Nat) : List (Option (List Nat)) :=
  List.replicate n none

/-- Source (line 357): `assets[index] = compressedAssets` — the task
owning output index `i` fills exactly its own slot. -/
def writeSlot (slots : List (Option (List Nat))) (i : Nat) (v : List Nat) :
    List (Option (List Nat)) :=
  slots.set i (some v)

/-- A successful run: every frame task completes, each writing its own
slot on its success path; `order` is the completion order of the task
indices and `results i` the compressed assets of task `i`. -/
def runAllTasks (n : Nat) (order : List Nat) (results : Nat → List Nat) :
    List (Option (List Nat)) :=
  order.foldl (fun acc i => writeSlot acc i (results i)) (initialAssetSlots n)

/-! ## Worker pool (counts) and crash-recovery refill (lines 238-245, 437-446) -/

/-- Modelled from the spec: pool.ts (`Pool`) is not part of this
snapshot.  §4.2/§3: an idle set, the handles currently borrowed (busy),
and a FIFO queue of suspended acquirers; only the counts matter for the
capacity invariant. -/
structure PoolCounts where
  idle : Nat
  busy : Nat
  waiters : Nat
deriving DecidableEq, Repr

/-- Source (`getPool`, lines 238-245): `actualConcurrency` pages are
created and the pool is constructed once from exactly that list. -/
def getPool (actualConcurrency : Nat) : PoolCounts :=
  ⟨actualConcurrency, 0, 0⟩

/-- Modelled from the spec: `acquire()` returns an idle handle
immediately, or suspends the caller (enqueued FIFO) when idle is
empty. -/
def acquire (s : PoolCounts) : PoolCounts :=
  if 0 < s.idle then ⟨s.idle - 1, s.busy + 1, s.waiters⟩
  else ⟨s.idle, s.busy, s.waiters + 1⟩

/-- Modelled from the spec: `release(handle)` of a borrowed handle wakes
the longest-waiting suspended caller (the handle stays borrowed, now by
the waiter), or returns the handle to idle. -/
def releaseHeld (s : PoolCounts) : PoolCounts :=
  if 0 < s.waiters then ⟨s.idle, s.busy, s.waiters - 1⟩
  else ⟨s.idle + 1, s.busy - 1, s.waiters⟩

/-- Releasing one freshly created handle that was never borrowed from
this pool: it is handed to a waiter (becoming borrowed) or joins idle.
This is what each `pool.release(newPage)` of the crash-recovery callback
does. -/
def releaseFresh (s : PoolCounts) : PoolCounts :=
  if 0 < s.waiters then ⟨s.idle, s.busy + 1, s.waiters - 1⟩
  else ⟨s.idle + 1, s.busy, s.waiters⟩

/-- Source (lines 437-446): the callback passed to
`browserReplacer.replaceBrowser` creates `actualConcurrency` fresh pages
and releases each into the existing pool, without removing any stale
handle. -/
def crashRecoveryRefill (actualConcurrency : Nat) (s : PoolCounts) : PoolCounts :=
  Nat.rec s (fun _ acc => releaseFresh acc) actualConcurrency

/-- The §3 pool invariant: `idle + busy == C`. -/
def poolInvariant (capacity : Nat) (s : PoolCounts) : Prop :=
  s.idle + s.busy = capacity

instance (capacity : Nat) (s : PoolCounts) : Decidable (poolInvariant capacity s) := by
  unfold poolInvariant
  infer_instance

/-! ## Crash Recovery Coordinator (modelled from the spec) -/

/-- Modelled from the spec: replace-browser.ts (`handleBrowserCrash` /
`BrowserReplacer`) is not part of this snapshot.  §4.4: the coordinator
keeps a serialized `replacing` state (the in-progress cycle, if any), a
count of completed cycles, and a count of pool refills performed. -/
structure CoordinatorState where
  replacing : Option Nat
  cyclesDone : Nat
  refills : Nat
deriving DecidableEq, Repr

/-- Fresh coordinator: no replacement in progress. -/
def coordinatorInit : CoordinatorState := ⟨none, 0, 0⟩

/-- Modelled from the spec: a task observing a crash-class error invokes
the coordinator; if a replacement is already in progress it waits on
that same cycle instead of triggering a new one, otherwise it begins a
new cycle.  Returns the cycle the task waits on. -/
def observeCrash (s : CoordinatorState) : CoordinatorState × Nat :=
  match s.replacing with
  | some cid => (s, cid)
  | none => (⟨some s.cyclesDone, s.cyclesDone, s.refills⟩, s.cyclesDone)

/-- Modelled from the spec: completing the in-progress replacement
refills the pool with C fresh handles exactly once and clears the
`replacing` state. -/
def completeReplacement (s : CoordinatorState) : CoordinatorState :=
  match s.replacing with
  | none => s
  | some _ => ⟨none, s.cyclesDone + 1, s.refills + 1⟩

/-! ## Concrete attempt schedules used as witnesses -/

/-- First attempt crashes (target closed), second succeeds. -/
def outcomesCrashThenSuccess : Nat → AttemptOutcome := fun n =>
  if n = 1 then .failure ⟨false, true, 7⟩ else .success

/-- First and second attempts both crash (target closed). -/
def outcomesCrashTwice : Nat → AttemptOutcome := fun n =>
  if n = 1 then .failure ⟨false, true, 7⟩ else .failure ⟨false, true, 8⟩

/-! ## Theorems -/

/-- Unfolding: a successful attempt completes the retry loop. -/
theorem retryStep_success (outcomes : Nat → AttemptOutcome) (stoppedAt : Nat → Bool)
    (retriesLeft attemptNo : Nat) (h : outcomes attemptNo = .success) :
    renderFrameAndRetryTargetClose outcomes stoppedAt retriesLeft attemptNo =
      (.completed, [.attemptEv attemptNo]) := by
  rw [renderFrameAndRetryTargetClose.eq_def]
  dsimp only
  rw [h]

/-- Unfolding: a cancellation-class error is rethrown immediately. -/
theorem retryStep_cancelled (outcomes : Nat → AttemptOutcome) (stoppedAt : Nat → Bool)
    (retriesLeft attemptNo : Nat) (e : Err) (h : outcomes attemptNo = .failure e)
    (hc : e.isUserCancelled = true) :
    renderFrameAndRetryTargetClose outcomes stoppedAt retriesLeft attemptNo =
      (.raised e, [.attemptEv attemptNo]) := by
  rw [renderFrameAndRetryTargetClose.eq_def]
  dsimp only
  rw [h]
  simp [hc]

/-- Unfolding: a non-crash-class error is rethrown immediately. -/
theorem retryStep_fatal (outcomes : Nat → AttemptOutcome) (stoppedAt : Nat → Bool)
    (retriesLeft attemptNo : Nat) (e : Err) (h : outcomes attemptNo = .failure e)
    (hc : e.isUserCancelled = false) (ht : e.isTargetClosed = false) :
    renderFrameAndRetryTargetClose outcomes stoppedAt retriesLeft attemptNo =
      (.raised e, [.attemptEv attemptNo]) := by
  rw [renderFrameAndRetryTargetClose.eq_def]
  dsimp only
  rw [h]
  simp [hc, ht]

/-- Unfolding: a crash-class error with the stop flag set returns quietly. -/
theorem retryStep_stopped (outcomes : Nat → AttemptOutcome) (stoppedAt : Nat → Bool)
    (retriesLeft attemptNo : Nat) (e : Err) (h : outcomes attemptNo = .failure e)
    (hc : e.isUserCancelled = false) (ht : e.isTargetClosed = true)
    (hst : stoppedAt attemptNo = true) :
    renderFrameAndRetryTargetClose outcomes stoppedAt retriesLeft attemptNo =
      (.completed, [.attemptEv attemptNo]) := by
  rw [renderFrameAndRetryTargetClose.eq_def]
  dsimp only
  rw [h]
  simp [hc, ht, hst]

/-- Unfolding: a crash-class error with no retries left is rethrown. -/
theorem retryStep_exhausted (outcomes : Nat → AttemptOutcome) (stoppedAt : Nat → Bool)
    (attemptNo : Nat) (e : Err) (h : outcomes attemptNo = .failure e)
    (hc : e.isUserCancelled = false) (ht : e.isTargetClosed = true)
    (hst : stoppedAt attemptNo = false) :
    renderFrameAndRetryTargetClose outcomes stoppedAt 0 attemptNo =
      (.raised e, [.attemptEv attemptNo]) := by
  rw [renderFrameAndRetryTargetClose.eq_def]
  dsimp only
  rw [h]
  simp [hc, ht, hst]

/-- Unfolding: a crash-class error with retries remaining replaces the
browser and retries the same frame with one fewer retry remaining. -/
theorem retryStep_retry (outcomes : Nat → AttemptOutcome) (stoppedAt : Nat → Bool)
    (r attemptNo : Nat) (e : Err) (h : outcomes attemptNo = .failure e)
    (hc : e.isUserCancelled = false) (ht : e.isTargetClosed = true)
    (hst : stoppedAt attemptNo = false) :
    renderFrameAndRetryTargetClose outcomes stoppedAt (r + 1) attemptNo =
      ((renderFrameAndRetryTargetClose outcomes stoppedAt r (attemptNo + 1)).1,
        .attemptEv attemptNo :: .replaceEv ::
          (renderFrameAndRetryTargetClose outcomes stoppedAt r (attemptNo + 1)).2) := by
  rw [renderFrameAndRetryTargetClose.eq_def]
  dsimp only
  rw [h]
  simp [hc, ht, hst]

/-- C1: with the default retry cap of 1, a single crash-class
(target-closed) error on a frame leads to exactly two attempts — the
trace is attempt 1, one browser replacement, attempt 2 — and the task
completes when the retried attempt succeeds; a second crash-class error
on the retried attempt is rethrown with no third attempt, making the
run-level join fail with that error. -/
theorem c1_default_cap_exactly_two_attempts
    (outcomes : Nat → AttemptOutcome) (stoppedAt : Nat → Bool) (e1 : Err)
    (h1 : outcomes 1 = .failure e1) (hc1 : e1.isUserCancelled = false)
    (ht1 : e1.isTargetClosed = true) (hstop : ∀ n, stoppedAt n = false) :
    (outcomes 2 = .success →
      renderFrameAndRetryTargetClose outcomes stoppedAt MAX_RETRIES_PER_FRAME 1 =
        (.completed, [.attemptEv 1, .replaceEv, .attemptEv 2])) ∧
    (∀ e2, outcomes 2 = .failure e2 → e2.isUserCancelled = false →
      e2.isTargetClosed = true →
      renderFrameAndRetryTargetClose outcomes stoppedAt MAX_RETRIES_PER_FRAME 1 =
        (.raised e2, [.attemptEv 1, .replaceEv, .attemptEv 2]) ∧
      progressResult
        [(renderFrameAndRetryTargetClose outcomes stoppedAt MAX_RETRIES_PER_FRAME 1).1] =
        .error e2) := by
  have hstep : renderFrameAndRetryTargetClose outcomes stoppedAt
      MAX_RETRIES_PER_FRAME 1 =
      ((renderFrameAndRetryTargetClose outcomes stoppedAt 0 2).1,
        .attemptEv 1 :: .replaceEv ::
          (renderFrameAndRetryTargetClose outcomes stoppedAt 0 2).2) :=
    retryStep_retry outcomes stoppedAt 0 1 e1 h1 hc1 ht1 (hstop 1)
  constructor
  · intro h2
    rw [hstep, retryStep_success outcomes stoppedAt 0 2 h2]
  · intro e2 h2 hc2 ht2
    have h2step := retryStep_exhausted outcomes stoppedAt 2 e2 h2 hc2 ht2 (hstop 2)
    constructor
    · rw [hstep, h2step]
    · rw [hstep, h2step]
      simp [progressResult]

/-- Witness for C1 at concrete attempt schedules. -/
theorem c1_default_cap_exactly_two_attempts_witness :
    (renderFrameAndRetryTargetClose outcomesCrashThenSuccess (fun _ => false)
        MAX_RETRIES_PER_FRAME 1 =
      (.completed, [.attemptEv 1, .replaceEv, .attemptEv 2])) ∧
    (renderFrameAndRetryTargetClose outcomesCrashTwice (fun _ => false)
        MAX_RETRIES_PER_FRAME 1 =
      (.raised ⟨false, true, 8⟩, [.attemptEv 1, .replaceEv, .attemptEv 2])) := by
  constructor
  · exact (c1_default_cap_exactly_two_attempts outcomesCrashThenSuccess
      (fun _ => false) ⟨false, true, 7⟩ rfl rfl rfl (fun _ => rfl)).1 rfl
  · exact ((c1_default_cap_exactly_two_attempts outcomesCrashTwice
      (fun _ => false) ⟨false, true, 7⟩ rfl rfl rfl (fun _ => rfl)).2
      ⟨false, true, 8⟩ rfl rfl rfl).1

/-- C2: the catch block's classification is exhaustive and ordered: a
cancellation-class error is rethrown at once with no retry (even if it
also reads as target-closed); a non-crash-class error is rethrown at
once with no retry; a browser replacement can only have happened for a
crash-class, non-cancellation error with the stop flag clear and retries
remaining; and in that case the frame is retried after the replacement
with one fewer retry remaining. -/
theorem c2_classification_exhaustive_ordered
    (outcomes : Nat → AttemptOutcome) (stoppedAt : Nat → Bool)
    (retriesLeft attemptNo : Nat) (e : Err)
    (h : outcomes attemptNo = .failure e) :
    (e.isUserCancelled = true →
      renderFrameAndRetryTargetClose outcomes stoppedAt retriesLeft attemptNo =
        (.raised e, [.attemptEv attemptNo])) ∧
    (e.isUserCancelled = false → e.isTargetClosed = false →
      renderFrameAndRetryTargetClose outcomes stoppedAt retriesLeft attemptNo =
        (.raised e, [.attemptEv attemptNo])) ∧
    (0 < countReplacements
        (renderFrameAndRetryTargetClose outcomes stoppedAt retriesLeft attemptNo).2 →
      e.isUserCancelled = false ∧ e.isTargetClosed = true ∧
      stoppedAt attemptNo = false ∧ 0 < retriesLeft) ∧
    (∀ r, e.isUserCancelled = false → e.isTargetClosed = true →
      stoppedAt attemptNo = false → retriesLeft = r + 1 →
      renderFrameAndRetryTargetClose outcomes stoppedAt retriesLeft attemptNo =
        ((renderFrameAndRetryTargetClose outcomes stoppedAt r (attemptNo + 1)).1,
          .attemptEv attemptNo :: .replaceEv ::
            (renderFrameAndRetryTargetClose outcomes stoppedAt r (attemptNo + 1)).2)) := by
  refine ⟨?_, ?_, ?_, ?_⟩
  · intro hc
    exact retryStep_cancelled outcomes stoppedAt retriesLeft attemptNo e h hc
  · intro hc ht
    exact retryStep_fatal outcomes stoppedAt retriesLeft attemptNo e h hc ht
  · intro hrep
    cases hcu : e.isUserCancelled with
    | true =>
      rw [retryStep_cancelled outcomes stoppedAt retriesLeft attemptNo e h hcu] at hrep
      simp [countReplacements] at hrep
    | false =>
      cases hct : e.isTargetClosed with
      | false =>
        rw [retryStep_fatal outcomes stoppedAt retriesLeft attemptNo e h hcu hct] at hrep
        simp [countReplacements] at hrep
      | true =>
        cases hst : stoppedAt attemptNo with
        | true =>
          rw [retryStep_stopped outcomes stoppedAt retriesLeft attemptNo e h hcu hct hst]
            at hrep
          simp [countReplacements] at hrep
        | false =>
          cases retriesLeft with
          | zero =>
            rw [retryStep_exhausted outcomes stoppedAt attemptNo e h hcu hct hst] at hrep
            simp [countReplacements] at hrep
          | succ r => exact ⟨rfl, rfl, rfl, Nat.succ_pos r⟩
  · intro r hc ht hst hrl
    subst hrl
    exact retryStep_retry outcomes stoppedAt r attemptNo e h hc ht hst

/-- Witness for C2 at a concrete crash schedule. -/
theorem c2_classification_exhaustive_ordered_witness :
    renderFrameAndRetryTargetClose outcomesCrashTwice (fun _ => false) 1 1 =
      ((renderFrameAndRetryTargetClose outcomesCrashTwice (fun _ => false) 0 2).1,
        .attemptEv 1 :: .replaceEv ::
          (renderFrameAndRetryTargetClose outcomesCrashTwice (fun _ => false) 0 2).2) :=
  (c2_classification_exhaustive_ordered outcomesCrashTwice (fun _ => false) 1 1
    ⟨false, true, 7⟩ rfl).2.2.2 0 rfl rfl rfl rfl

/-- C3: if the stride is 1 the numbering mode is actual-frames, output
indices equal actual frame numbers and the padding width is computed
from the last actual frame number; if the stride is greater than 1 the
mode is from-zero, output indices are renumbered consecutively from zero
and the padding width is computed from the count of selected frames.
In particular a plan over 20 addressable frames with stride 5 selects
[0, 5, 10, 15], uses from-zero numbering with output indices
[0, 1, 2, 3], and a naming width computed from its 4 entries. -/
theorem c3_numbering_mode_and_padding (everyNthFrame : Nat) :
    (everyNthFrame = 1 →
      countType everyNthFrame = .actualFrames ∧
      (∀ frames : List Nat, outputIndices (countType everyNthFrame) frames = frames) ∧
      (∀ lastFrame totalFrames,
        getFilePadLength lastFrame totalFrames (countType everyNthFrame) =
          decimalWidth lastFrame)) ∧
    (everyNthFrame ≠ 1 →
      countType everyNthFrame = .fromZero ∧
      (∀ frames : List Nat,
        outputIndices (countType everyNthFrame) frames = List.range frames.length) ∧
      (∀ lastFrame totalFrames,
        getFilePadLength lastFrame totalFrames (countType everyNthFrame) =
          decimalWidth (totalFrames - 1))) ∧
    (getFramesToRender (getRealFrameRange 20 none) 5 = [0, 5, 10, 15] ∧
      countType 5 = .fromZero ∧
      outputIndices (countType 5) (getFramesToRender (getRealFrameRange 20 none) 5) =
        [0, 1, 2, 3] ∧
      getFilePadLength 15 (getFramesToRender (getRealFrameRange 20 none) 5).length
          (countType 5) =
        decimalWidth ((getFramesToRender (getRealFrameRange 20 none) 5).length - 1)) := by
  refine ⟨?_, ?_, by decide⟩
  · intro h1
    subst h1
    refine ⟨rfl, ?_, fun lastFrame totalFrames => rfl⟩
    intro frames
    simp [outputIndices, countType, outputIndexForFrame, List.enum_map_snd]
  · intro hne
    have hct : countType everyNthFrame = .fromZero := by
      simp [countType, hne]
    refine ⟨hct, ?_, ?_⟩
    · intro frames
      rw [hct]
      simp [outputIndices, outputIndexForFrame, List.enum_map_fst]
    · intro lastFrame totalFrames
      rw [hct]
      rfl

/-- Witness for C3 at strides 1 and 5. -/
theorem c3_numbering_mode_and_padding_witness :
    countType 1 = CountType.actualFrames ∧
    countType 5 = CountType.fromZero ∧
    getFramesToRender (getRealFrameRange 20 none) 5 = [0, 5, 10, 15] := by
  refine ⟨((c3_numbering_mode_and_padding 1).1 rfl).1,
    ((c3_numbering_mode_and_padding 5).2.1 (by decide)).1,
    (c3_numbering_mode_and_padding 5).2.2.1⟩

/-- C4 counterexample: with the cancellation flag already set when the
frame task starts, the task still acquires a worker handle before it
terminates — the claim's "without acquiring a worker handle" fails. -/
theorem c4_counterexample :
    TaskEv.acquireEv ∈
      (renderFrameWithOptionToReject ⟨true, false, true, false, false, false⟩).1 ∧
    (renderFrameWithOptionToReject ⟨true, false, true, false, false, false⟩).2 =
      .error .renderWasStopped := by decide

/-- C4 amended: a frame task that finds the cancellation flag set at the
check following acquisition terminates right after acquiring a handle —
no seek, no capture, no slot write — rejecting with the stop error; and
with the signal already fired the attempt's race settles with the
distinguished cancellation error, which the retry loop rethrows without
retrying, so the run rejects with the cancellation cause and zero
captured frames. -/
theorem c4_cancellation_before_start_amended (env : FrameTaskEnv)
    (classify : TaskErr → Err) (h : env.stopped = true) :
    (renderFrameWithOptionToReject env).1 = [.acquireEv] ∧
    (renderFrameWithOptionToReject env).2 = .error .renderWasStopped ∧
    TaskEv.captureEv ∉ (renderFrameWithOptionToReject env).1 ∧
    TaskEv.writeSlotEv ∉ (renderFrameWithOptionToReject env).1 ∧
    raceWithCancelSignal true (renderFrameWithOptionToReject env).2 classify =
      .failure cancelErr ∧
    (∀ retriesLeft attemptNo,
      renderFrameAndRetryTargetClose
        (fun _ => raceWithCancelSignal true (renderFrameWithOptionToReject env).2 classify)
        (fun _ => true) retriesLeft attemptNo =
        (.raised cancelErr, [.attemptEv attemptNo])) ∧
    progressResult [.raised cancelErr] = .error cancelErr := by
  have hbody : renderFrameWithOptionToReject env = ([.acquireEv], .error .renderWasStopped) := by
    simp [renderFrameWithOptionToReject, h]
  refine ⟨by rw [hbody], by rw [hbody], by rw [hbody]; decide, by rw [hbody]; decide,
    by rw [hbody]; rfl, ?_, by decide⟩
  intro retriesLeft attemptNo
  exact retryStep_cancelled _ (fun _ => true) retriesLeft attemptNo cancelErr
    (by rw [hbody]; rfl) rfl

/-- Witness for C4's amended statement at a concrete environment. -/
theorem c4_cancellation_before_start_amended_witness :
    (renderFrameWithOptionToReject ⟨true, false, true, false, false, false⟩).1 =
      [TaskEv.acquireEv] ∧
    renderFrameAndRetryTargetClose
      (fun _ => raceWithCancelSignal true
        (renderFrameWithOptionToReject ⟨true, false, true, false, false, false⟩).2
        (fun _ => cancelErr))
      (fun _ => true) MAX_RETRIES_PER_FRAME 1 =
      (.raised cancelErr, [.attemptEv 1]) := by
  have hadm := c4_cancellation_before_start_amended
    ⟨true, false, true, false, false, false⟩ (fun _ => cancelErr) rfl
  exact ⟨hadm.1, hadm.2.2.2.2.2.1 MAX_RETRIES_PER_FRAME 1⟩

/-- C5 counterexample: with both an output directory and a frame-buffer
callback configured (capture required), the configuration error is
thrown only after the task has acquired a worker handle and driven it
with a seek — not before any worker is touched as the claim states. -/
theorem c5_counterexample :
    (renderFrameWithOptionToReject ⟨false, false, true, true, false, false⟩).2 =
      .error .configBothOutputs ∧
    TaskEv.acquireEv ∈
      (renderFrameWithOptionToReject ⟨false, false, true, true, false, false⟩).1 ∧
    TaskEv.seekEv ∈
      (renderFrameWithOptionToReject ⟨false, false, true, true, false, false⟩).1 := by
  decide

/-- C5 amended: when capture is required (image format not 'none'),
specifying both output modes or neither is a configuration error, raised
inside the frame task after handle acquisition and the initial seek but
before any capture, slot write, or release. -/
theorem c5_conflicting_output_modes_amended (env : FrameTaskEnv)
    (hstop : env.stopped = false) (hseek : env.seekFails = false)
    (hfmt : env.imageFormatIsNone = false)
    (hconf : (env.hasOutputDir = true ∧ env.hasOnFrameBuffer = true) ∨
      (env.hasOutputDir = false ∧ env.hasOnFrameBuffer = false)) :
    ((renderFrameWithOptionToReject env).2 = .error .configBothOutputs ∨
      (renderFrameWithOptionToReject env).2 = .error .configNeitherOutput) ∧
    (renderFrameWithOptionToReject env).1 = [.acquireEv, .seekEv] ∧
    TaskEv.captureEv ∉ (renderFrameWithOptionToReject env).1 ∧
    TaskEv.writeSlotEv ∉ (renderFrameWithOptionToReject env).1 ∧
    TaskEv.releaseEv ∉ (renderFrameWithOptionToReject env).1 := by
  rcases hconf with ⟨h1, h2⟩ | ⟨h1, h2⟩
  · have hbody : renderFrameWithOptionToReject env =
        ([.acquireEv, .seekEv], .error .configBothOutputs) := by
      simp [renderFrameWithOptionToReject, hstop, hseek, hfmt, h1, h2]
    rw [hbody]
    refine ⟨Or.inl rfl, rfl, by decide, by decide, by decide⟩
  · have hbody : renderFrameWithOptionToReject env =
        ([.acquireEv, .seekEv], .error .configNeitherOutput) := by
      simp [renderFrameWithOptionToReject, hstop, hseek, hfmt, h1, h2]
    rw [hbody]
    refine ⟨Or.inr rfl, rfl, by decide, by decide, by decide⟩

/-- Witness for C5's amended statement at a concrete environment. -/
theorem c5_conflicting_output_modes_amended_witness :
    (renderFrameWithOptionToReject ⟨false, false, true, true, false, false⟩).1 =
      [TaskEv.acquireEv, TaskEv.seekEv] :=
  (c5_conflicting_output_modes_amended ⟨false, false, true, true, false, false⟩
    rfl rfl rfl (Or.inl ⟨rfl, rfl⟩)).2.1

/-- C6: the successful-run manifest carries the per-frame asset records
through unchanged, names the sequence with the fixed prefix `element-`,
a zero-padded field of the computed padding width and the format
extension, reports the frame count as the number of planned frames, and
has first output index 0 in from-zero mode and the first planned frame
number in actual-frames mode. -/
theorem c6_manifest_contents (durationInFrames : Nat)
    (frameRange : Option (Nat × Nat)) (everyNthFrame : Nat)
    (imageFormat : String) (assetSlots : List (Option (List Nat)))
    (hne : getFramesToRender (getRealFrameRange durationInFrames frameRange)
      everyNthFrame ≠ []) :
    (innerRenderFramesManifest durationInFrames frameRange everyNthFrame
        imageFormat assetSlots).assetsInfo.assetSlots = assetSlots ∧
    (innerRenderFramesManifest durationInFrames frameRange everyNthFrame
        imageFormat assetSlots).assetsInfo.imageSequenceName =
      "element-%0" ++
        Nat.repr (getFilePadLength
          ((getFramesToRender (getRealFrameRange durationInFrames frameRange)
            everyNthFrame).getLastD 0)
          (getFramesToRender (getRealFrameRange durationInFrames frameRange)
            everyNthFrame).length
          (countType everyNthFrame)) ++ "d." ++ imageFormat ∧
    (innerRenderFramesManifest durationInFrames frameRange everyNthFrame
        imageFormat assetSlots).frameCount =
      (getFramesToRender (getRealFrameRange durationInFrames frameRange)
        everyNthFrame).length ∧
    (everyNthFrame = 1 →
      (innerRenderFramesManifest durationInFrames frameRange everyNthFrame
          imageFormat assetSlots).assetsInfo.firstFrameIndex =
        (getFramesToRender (getRealFrameRange durationInFrames frameRange)
          everyNthFrame).headD 0) ∧
    (everyNthFrame ≠ 1 →
      (innerRenderFramesManifest durationInFrames frameRange everyNthFrame
          imageFormat assetSlots).assetsInfo.firstFrameIndex = 0) := by
  refine ⟨rfl, rfl, rfl, ?_, ?_⟩
  · intro h1
    subst h1
    rfl
  · intro hne1
    have hct : countType everyNthFrame = .fromZero := by
      simp [countType, hne1]
    simp [innerRenderFramesManifest, happyPath, hct]

/-- Witness for C6 at a concrete plan. -/
theorem c6_manifest_contents_witness :
    (innerRenderFramesManifest 20 none 5 "png"
      [some [1], some [2], some [3], some [4]]).frameCount =
      (getFramesToRender (getRealFrameRange 20 none) 5).length :=
  (c6_manifest_contents 20 none 5 "png" [some [1], some [2], some [3], some [4]]
    (by decide)).2.2.1

/-- Folding slot writes keeps the array length. -/
theorem runWrite_length (results : Nat → List Nat) (order : List Nat)
    (acc : List (Option (List Nat))) :
    (order.foldl (fun a j => writeSlot a j (results j)) acc).length = acc.length := by
  induction order generalizing acc with
  | nil => rfl
  | cons j rest ih =>
    rw [List.foldl_cons, ih]
    simp [writeSlot]

/-- A slot not owned by any remaining task is untouched by the fold. -/
theorem runWrite_get_not_mem (results : Nat → List Nat) (order : List Nat)
    (acc : List (Option (List Nat))) (i : Nat) (h : i ∉ order) :
    (order.foldl (fun a j => writeSlot a j (results j)) acc)[i]? = acc[i]? := by
  induction order generalizing acc with
  | nil => rfl
  | cons j rest ih =>
    rw [List.foldl_cons]
    have hij : i ∉ rest := fun hm => h (List.mem_cons_of_mem _ hm)
    have hne : j ≠ i := fun he => h (he ▸ List.mem_cons_self j rest)
    rw [ih _ hij]
    exact List.getElem?_set_ne hne

/-- A slot owned by some task in the fold ends up holding exactly that
task's result. -/
theorem runWrite_get_mem (results : Nat → List Nat) (order : List Nat)
    (acc : List (Option (List Nat))) (i : Nat) (h : i ∈ order)
    (hlen : i < acc.length) :
    (order.foldl (fun a j => writeSlot a j (results j)) acc)[i]? =
      some (some (results i)) := by
  induction order generalizing acc with
  | nil => cases h
  | cons j rest ih =>
    rw [List.foldl_cons]
    by_cases hm : i ∈ rest
    · refine ih _ hm ?_
      simpa [writeSlot] using hlen
    · have hij : i = j := by
        rcases List.mem_cons.mp h with he | hm2
        · exact he
        · exact absurd hm2 hm
      subst hij
      rw [runWrite_get_not_mem results rest _ i hm]
      have hsome : acc[i]? = some acc[i] := List.getElem?_eq_getElem hlen
      simp [writeSlot]
      rw [List.getElem?_set_self', hsome]
      rfl

/-- C7: slots are pre-allocated one per planned frame and start
unfilled; each planned output index is written exactly once — by the
task owning it, and only on a run of the task body that completes
successfully — and after a successful run (every task completed, in any
completion order) the manifest holds exactly one asset record per
planned frame, indexed by output index, with no gaps. -/
theorem c7_one_asset_record_per_frame (n : Nat) (order : List Nat)
    (results : Nat → List Nat) (hmem : ∀ i, i ∈ order ↔ i < n)
    (hnd : order.Nodup) :
    ((initialAssetSlots n).length = n ∧
      ∀ i, i < n → (initialAssetSlots n)[i]? = some none) ∧
    (runAllTasks n order results).length = n ∧
    (∀ i, i < n → (runAllTasks n order results)[i]? = some (some (results i))) ∧
    (∀ i, i < n → order.count i = 1) ∧
    (∀ env : FrameTaskEnv, ∀ e, (renderFrameWithOptionToReject env).2 = .error e →
      TaskEv.writeSlotEv ∉ (renderFrameWithOptionToReject env).1) := by
  refine ⟨⟨by simp [initialAssetSlots], ?_⟩, ?_, ?_, ?_, by decide⟩
  · intro i hi
    simp [initialAssetSlots, List.getElem?_replicate, hi]
  · rw [runAllTasks, runWrite_length]
    simp [initialAssetSlots]
  · intro i hi
    rw [runAllTasks]
    exact runWrite_get_mem results order _ i ((hmem i).mpr hi)
      (by simp [initialAssetSlots, hi])
  · intro i hi
    exact List.count_eq_one_of_mem hnd ((hmem i).mpr hi)

/-- Witness for C7 at a concrete successful run. -/
theorem c7_one_asset_record_per_frame_witness :
    (runAllTasks 3 [2, 0, 1] (fun i => [i])).length = 3 :=
  (c7_one_asset_record_per_frame 3 [2, 0, 1] (fun i => [i])
    (by intro i; simp [List.mem_cons]; omega) (by decide)).2.1

/-- Releasing one fresh handle grows `idle + busy` by exactly one. -/
theorem releaseFresh_sum (s : PoolCounts) :
    (releaseFresh s).idle + (releaseFresh s).busy = s.idle + s.busy + 1 := by
  unfold releaseFresh
  split <;> dsimp <;> omega

/-- C8 counterexample: from the reachable state with capacity 2 where
one handle is borrowed and one is idle (a one-frame run), the
crash-recovery refill of 2 fresh handles leaves `idle + busy = 4`,
violating the claimed invariant `idle + busy == C`. -/
theorem c8_counterexample :
    poolInvariant 2 (acquire (getPool 2)) ∧
    ¬ poolInvariant 2 (crashRecoveryRefill 2 (acquire (getPool 2))) := by decide

/-- C8 amended: the pool is created once with exactly C handles, and
`idle + busy == C` is preserved by acquire and by release of a borrowed
handle; the crash-recovery refill, however, releases C fresh handles
without draining stale ones, so it increases `idle + busy` by exactly C
instead of preserving the invariant. -/
theorem c8_pool_invariant_amended (capacity : Nat) (s : PoolCounts)
    (h : poolInvariant capacity s) (hb : 0 < s.busy) :
    poolInvariant capacity (getPool capacity) ∧
    poolInvariant capacity (acquire s) ∧
    poolInvariant capacity (releaseHeld s) ∧
    (∀ k, (crashRecoveryRefill k s).idle + (crashRecoveryRefill k s).busy =
      capacity + k) := by
  unfold poolInvariant at h
  refine ⟨?_, ?_, ?_, ?_⟩
  · simp [poolInvariant, getPool]
  · unfold poolInvariant acquire
    split <;> dsimp <;> omega
  · unfold poolInvariant releaseHeld
    split <;> dsimp <;> omega
  · intro k
    induction k with
    | zero => simpa [crashRecoveryRefill] using h
    | succ k ih =>
      have hstep : crashRecoveryRefill (k + 1) s =
          releaseFresh (crashRecoveryRefill k s) := rfl
      rw [hstep, releaseFresh_sum]
      omega

/-- Witness for C8's amended statement at a reachable concrete state. -/
theorem c8_pool_invariant_amended_witness :
    poolInvariant 2 (getPool 2) ∧ poolInvariant 2 (acquire ⟨1, 1, 0⟩) ∧
    (crashRecoveryRefill 2 ⟨1, 1, 0⟩).idle + (crashRecoveryRefill 2 ⟨1, 1, 0⟩).busy =
      2 + 2 := by
  have happ := c8_pool_invariant_amended 2 ⟨1, 1, 0⟩ (by decide) (by decide)
  exact ⟨happ.1, happ.2.1, happ.2.2.2 2⟩

/-- C9: when a replacement is already in progress, a task observing a
crash joins that same cycle without changing the coordinator state, a
second concurrent observer joins the same cycle too, and completing the
cycle performs exactly one pool refill; likewise, starting from no
replacement in progress, two concurrent crash observers share one cycle
and its completion refills the pool exactly once. -/
theorem c9_concurrent_crashes_single_cycle (s : CoordinatorState) (cid : Nat)
    (h : s.replacing = some cid) :
    (observeCrash s).2 = cid ∧
    (observeCrash s).1 = s ∧
    (observeCrash (observeCrash s).1).2 = cid ∧
    (completeReplacement s).refills = s.refills + 1 ∧
    (∀ s0 : CoordinatorState, s0.replacing = none →
      (observeCrash s0).2 = (observeCrash (observeCrash s0).1).2 ∧
      (completeReplacement (observeCrash (observeCrash s0).1).1).refills =
        s0.refills + 1) := by
  refine ⟨?_, ?_, ?_, ?_, ?_⟩
  · simp [observeCrash, h]
  · simp [observeCrash, h]
  · simp [observeCrash, h]
  · simp [completeReplacement, h]
  · intro s0 h0
    simp [observeCrash, completeReplacement, h0]

/-- Witness for C9 at a concrete mid-replacement state. -/
theorem c9_concurrent_crashes_single_cycle_witness :
    (observeCrash ⟨some 0, 0, 0⟩).2 = 0 :=
  (c9_concurrent_crashes_single_cycle ⟨some 0, 0, 0⟩ 0 rfl).1

/-- C10 counterexample: a page error fired through the error callback of
lines 293-302 while the rest of the body succeeds — the task settles
rejected with the page error, yet its trace still contains the release
of line 373, so the acquired handle is returned to the pool on an error
path, contrary to the claim. -/
theorem c10_counterexample :
    (renderFrameTaskSettled ⟨false, false, true, false, false, false⟩ true).2 =
      .error .pageError ∧
    TaskEv.releaseEv ∈
      (renderFrameTaskSettled ⟨false, false, true, false, false, false⟩ true).1 := by
  decide

/-- C10 amended: release is reached exactly when the task body runs its
whole success path, independently of the out-of-band page-error
rejection: every error that aborts the body (stop-flag rejection, seek
failure, configuration error, capture failure) settles the task with no
release in its trace, and with no page error the task settles
successfully exactly when its trace contains the release; a page error,
however, rejects the task without aborting the body, so a body that
otherwise succeeds still releases the handle despite the rejection. -/
theorem c10_release_on_body_success_amended :
    ∀ (env : FrameTaskEnv) (pageErrorFires : Bool),
      (∀ e, e ≠ TaskErr.pageError →
        (renderFrameTaskSettled env pageErrorFires).2 = .error e →
        TaskEv.releaseEv ∉ (renderFrameTaskSettled env pageErrorFires).1) ∧
      (pageErrorFires = false →
        ((renderFrameTaskSettled env pageErrorFires).2 = .ok () ↔
          TaskEv.releaseEv ∈ (renderFrameTaskSettled env pageErrorFires).1)) ∧
      (TaskEv.releaseEv ∈ (renderFrameTaskSettled env pageErrorFires).1 ↔
        (renderFrameWithOptionToReject env).2 = .ok ()) := by
  decide

/-- Witness for C10's amended statement at a concrete erroring
environment. -/
theorem c10_release_on_body_success_amended_witness :
    TaskEv.releaseEv ∉
      (renderFrameTaskSettled ⟨false, false, true, false, false, true⟩ false).1 :=
  (c10_release_on_body_success_amended ⟨false, false, true, false, false, true⟩
    false).1 .captureError (by decide) rfl

end RenderFrames
